import Mathlib

/-!
Shallow embedding of `src/app/page.tsx` (the `Home` component of the
microfilaria detection front end).

The component keeps six `useState` cells (selected file, preview URL,
loading flag, results, error string, confidence threshold) and exposes two
event handlers, `handleFileSelect` and `handleDetect`, plus a render
section.  We embed each handler as a function producing the list of
primitive effects it performs, in source order (`setX` calls, the `fetch`
dispatch, and the `console.error` log), and interpret that list over an
explicit state record.  JavaScript numbers are modelled as exact rationals
(`ℚ`); `toFixed` and `toString` are modelled by their exact decimal
semantics on those rationals.
-/

/-- A file handle produced by the browser file picker.  Only its name is
observable to the embedded code. -/
structure JSFile where
  name : String
deriving DecidableEq, Repr

/-- `URL.createObjectURL`, modelled as a deterministic function of the
file: the code only ever compares/stores the resulting string. -/
def createObjectURL (f : JSFile) : String := "blob:" ++ f.name

/-- `interface Detection` of page.tsx: bbox record inlined as a structure. -/
structure BBox where
  x1 : ℚ
  y1 : ℚ
  x2 : ℚ
  y2 : ℚ
deriving DecidableEq, Repr

/-- `interface Detection` of page.tsx. -/
structure Detection where
  id : ℚ
  «class» : String
  confidence : ℚ
  bbox : BBox
deriving DecidableEq, Repr

/-- `image_info` field of `interface DetectionResponse`. -/
structure ImageInfo where
  width : ℚ
  height : ℚ
  filename : String
deriving DecidableEq, Repr

/-- `detection_stats` field of `interface DetectionResponse`. -/
structure DetectionStats where
  total_count : ℚ
  average_confidence : ℚ
  confidence_threshold : ℚ
deriving DecidableEq, Repr

/-- `interface DetectionResponse` of page.tsx, extended with the optional
`error` field that `handleDetect` reads off failure bodies
(`data.error || 'Detection failed'`); `error = none` models an absent
field. -/
structure DetectionResponse where
  success : Bool
  error : Option String
  timestamp : String
  image_info : ImageInfo
  detection_stats : DetectionStats
  detections : List Detection
  annotated_image : String
deriving DecidableEq, Repr

/-- The six `useState` cells of the `Home` component. -/
structure ComponentState where
  selectedFile : Option JSFile
  previewUrl : String
  loading : Bool
  results : Option DetectionResponse
  error : String
  confidence : ℚ
deriving DecidableEq, Repr

/-- The initial state of the component: the `useState` initialisers of
page.tsx lines 36-41 (`null`, `''`, `false`, `null`, `''`, `0.25`). -/
def initialState : ComponentState :=
  { selectedFile := none
    previewUrl := ""
    loading := false
    results := none
    error := ""
    confidence := 1/4 }

/-- A value placed in the multipart `FormData`: a binary file or a text
field. -/
inductive FormValue where
  | file (f : JSFile)
  | text (s : String)
deriving DecidableEq, Repr

/-- The one outbound HTTP request `handleDetect` builds: method, URL,
explicit headers (the fetch call passes none), and the `FormData` fields
in append order. -/
structure Request where
  method : String
  url : String
  headers : List (String × String)
  formFields : List (String × FormValue)
deriving DecidableEq, Repr

/-- The URL literal of the fetch call (page.tsx line 67). -/
def apiUrl : String := "http://localhost:1000/api/detect"

/-- The catch-branch error literal (page.tsx line 80). -/
def connectionErrorMsg : String :=
  "Failed to connect to API. Make sure Flask server is running on port 5000"

/-- Left-pad the decimal digits of `m` with zeros to width `d`. -/
def padZeros (d : ℕ) (m : ℕ) : String :=
  let s := toString m
  String.mk (List.replicate (d - s.length) '0') ++ s

/-- Decimal rendering of a nonnegative rational whose denominator divides a
power of ten, used to model JavaScript number-to-string conversion on the
exact values the component handles. -/
def ratAbsToString (q : ℚ) : String :=
  if q.den = 1 then toString q.num.natAbs
  else
    match (List.range 19).find? (fun d => (q * (10 : ℚ) ^ (d + 1)).den = 1) with
    | some d =>
        let m := (q * (10 : ℚ) ^ (d + 1)).num.natAbs
        toString (m / 10 ^ (d + 1)) ++ "." ++ padZeros (d + 1) (m % 10 ^ (d + 1))
    | none => toString q.num.natAbs ++ "/" ++ toString q.den

/-- JavaScript `Number.prototype.toString` (shortest decimal form),
modelled exactly on rationals: used for `confidence.toString()` and for
numbers interpolated into JSX. -/
def jsNumToString (q : ℚ) : String :=
  (if q < 0 then "-" else "") ++ ratAbsToString (if q < 0 then -q else q)

/-- JavaScript `Number.prototype.toFixed(d)`: the integer `n` minimising
the distance of `n / 10^d` to the argument, ties toward the larger `n`
(ECMA-262), i.e. `n = ⌊q·10^d + 1/2⌋`, rendered with exactly `d` decimal
places. -/
def toFixed (q : ℚ) (d : ℕ) : String :=
  let n : ℤ := ⌊q * (10 : ℚ) ^ d + 1/2⌋
  let m := n.natAbs
  let sign := if n < 0 then "-" else ""
  if d = 0 then sign ++ toString m
  else sign ++ toString (m / 10 ^ d) ++ "." ++ padZeros d (m % 10 ^ d)

/-- JavaScript `a || b` specialised to the `data.error || 'Detection
failed'` expression: an absent (`undefined`) or empty string is falsy and
selects the fallback. -/
def jsOr (e : Option String) (fallback : String) : String :=
  match e with
  | some s => if s = "" then fallback else s
  | none => fallback

/-- The outcome of the `fetch`/`response.json()` pair as seen from inside
the try block: either a transport-level failure (rejected fetch, non-JSON
body — anything that throws and lands in the catch branch), or a response
with its HTTP status code and successfully parsed JSON body. -/
inductive FetchOutcome where
  | failure
  | response (status : ℕ) (body : DetectionResponse)
deriving DecidableEq, Repr

/-- One primitive effect performed by a handler: a React state update, the
dispatch of the HTTP request, or the `console.error` log. -/
inductive Effect where
  | setSelectedFile (f : Option JSFile)
  | setPreviewUrl (u : String)
  | setLoading (b : Bool)
  | setResults (r : Option DetectionResponse)
  | setError (e : String)
  | sendRequest (r : Request)
  | logError
deriving DecidableEq, Repr

/-- Interpretation of a single action over the component state (request
dispatch and logging do not change the state cells). -/
def applyEffect (s : ComponentState) : Effect → ComponentState
  | .setSelectedFile f => { s with selectedFile := f }
  | .setPreviewUrl u => { s with previewUrl := u }
  | .setLoading b => { s with loading := b }
  | .setResults r => { s with results := r }
  | .setError e => { s with error := e }
  | .sendRequest _ => s
  | .logError => s

/-- Run a list of actions left to right. -/
def applyTrace (s : ComponentState) (t : List Effect) : ComponentState :=
  t.foldl applyEffect s

/-- The requests dispatched in a trace, in order. -/
def sentRequests (t : List Effect) : List Request :=
  t.filterMap fun a =>
    match a with
    | .sendRequest r => some r
    | _ => none

/-- Whether a trace logs to the console. -/
def logsError (t : List Effect) : Bool :=
  t.any fun a =>
    match a with
    | .logError => true
    | _ => false

/-- The request `handleDetect` builds (page.tsx lines 62-70): `FormData`
with `image` then `confidence` (confidence stringified), POSTed to the
fixed URL with no headers. -/
def mkRequest (file : JSFile) (confidence : ℚ) : Request :=
  { method := "POST"
    url := apiUrl
    headers := []
    formFields := [("image", .file file), ("confidence", .text (jsNumToString confidence))] }

/-- The effect trace of `handleDetect` (page.tsx lines 53-85), given the
pre-state and the outcome of the network exchange.  Source order: the
guard returns early on no file; otherwise `setLoading(true)`,
`setError('')`, the fetch dispatch, then the branch on `data.success` (or
the catch branch: `setError(...)`, `console.error`), and the finally
block `setLoading(false)` last. -/
def detectTrace (s : ComponentState) (outcome : FetchOutcome) : List Effect :=
  match s.selectedFile with
  | none => [.setError "Please select an image first"]
  | some file =>
      [.setLoading true, .setError "", .sendRequest (mkRequest file s.confidence)] ++
      (match outcome with
       | .response _ data =>
           if data.success then [.setResults (some data)]
           else [.setError (jsOr data.error "Detection failed")]
       | .failure => [.setError connectionErrorMsg, .logError]) ++
      [.setLoading false]

/-- `handleDetect` as a state transformer: interpret its effect trace. -/
def handleDetect (s : ComponentState) (outcome : FetchOutcome) : ComponentState :=
  applyTrace s (detectTrace s outcome)

/-- The effect trace of `handleFileSelect` (page.tsx lines 43-51), given
`e.target.files?.[0]`: with a file, set it, regenerate the preview URL,
clear results and error; with no file, do nothing. -/
def fileSelectTrace (file : Option JSFile) : List Effect :=
  match file with
  | none => []
  | some f =>
      [.setSelectedFile (some f), .setPreviewUrl (createObjectURL f),
       .setResults none, .setError ""]

/-- `handleFileSelect` as a state transformer. -/
def handleFileSelect (file : Option JSFile) (s : ComponentState) : ComponentState :=
  applyTrace s (fileSelectTrace file)

/-- page.tsx line 182: the error panel renders iff `error` is non-empty
(truthy). -/
def showsError (s : ComponentState) : Bool := s.error ≠ ""

/-- page.tsx line 206: the results panel renders iff `results` is non-null
(truthy). -/
def showsResults (s : ComponentState) : Bool := s.results.isSome

/-- The observable text of one rendered detection entry (page.tsx lines
244-260): header `#id - class`, the confidence badge, and the bbox line. -/
structure DetectionView where
  header : String
  confidenceBadge : String
  boxLine : String
deriving DecidableEq, Repr

/-- Render one detection (page.tsx lines 249-259). -/
def renderDetection (d : Detection) : DetectionView :=
  { header := "#" ++ jsNumToString d.id ++ " - " ++ d.«class»
    confidenceBadge := toFixed (d.confidence * 100) 2 ++ "%"
    boxLine := "Box: [" ++ toFixed d.bbox.x1 0 ++ ", " ++ toFixed d.bbox.y1 0 ++ ", "
        ++ toFixed d.bbox.x2 0 ++ ", " ++ toFixed d.bbox.y2 0 ++ "]" }

/-- The observable content of the results panel (page.tsx lines 206-263). -/
structure ResultsView where
  totalCount : String
  avgConfidence : String
  annotatedImage : String
  detailsHeader : String
  detections : List DetectionView
deriving DecidableEq, Repr

/-- Render the results panel (page.tsx lines 206-263): total count,
average confidence as `(avg*100).toFixed(1)%`, the annotated image, the
details header with the list length, and the detection entries in the
order of `results.detections.map`. -/
def renderResults (r : DetectionResponse) : ResultsView :=
  { totalCount := jsNumToString r.detection_stats.total_count
    avgConfidence := toFixed (r.detection_stats.average_confidence * 100) 1 ++ "%"
    annotatedImage := r.annotated_image
    detailsHeader := "Detection Details (" ++ toString r.detections.length ++ ")"
    detections := r.detections.map renderDetection }

/-! Concrete sample inputs (spec §8, Scenarios A-D) used by witnesses and
counterexamples. -/

/-- The sample file of spec Scenario A. -/
def sampleFile : JSFile := ⟨"sample.jpg"⟩

/-- A concrete successful response in the shape of spec Scenario A
(`total_count = 2`, `average_confidence = 0.81`). -/
def sampleResponse : DetectionResponse :=
  { success := true
    error := none
    timestamp := "2024-01-01T00:00:00"
    image_info := { width := 640, height := 480, filename := "sample.jpg" }
    detection_stats := { total_count := 2, average_confidence := 81/100, confidence_threshold := 2/5 }
    detections := [{ id := 1, «class» := "microfilaria", confidence := 8123/10000,
                     bbox := { x1 := 106/10, y1 := 203/10, x2 := 501/2, y2 := 300 } }]
    annotated_image := "data:image/jpeg;base64,QUJD" }

/-- A component state with `sample.jpg` selected and confidence 0.4. -/
def readyState : ComponentState :=
  { initialState with selectedFile := some sampleFile, confidence := 2/5 }

/-- A settled state whose previous request succeeded (results populated). -/
def staleState : ComponentState :=
  { readyState with results := some sampleResponse }

/-- A failure body whose `error` field is present but the empty string. -/
def emptyErrorResponse : DetectionResponse :=
  { sampleResponse with success := false, error := some "" }

/-- A failure body in the shape of spec Scenario C. -/
def failureResponse : DetectionResponse :=
  { sampleResponse with success := false, error := some "No detections found" }

/-- C1 counterexample: `handleDetect` never clears `results`, so a request
that settles in the catch branch leaves the stale `DetectionResult` of an
earlier success populated alongside the new `ErrorMessage`, and the page
renders both panels — refuting "at most one of {DetectionResult,
ErrorMessage} is populated after a request settles". -/
theorem detect_keeps_stale_results_cex :
    staleState.results = some sampleResponse ∧
    (handleDetect staleState .failure).results = some sampleResponse ∧
    (handleDetect staleState .failure).error = connectionErrorMsg ∧
    connectionErrorMsg ≠ "" ∧
    showsResults (handleDetect staleState .failure) = true ∧
    showsError (handleDetect staleState .failure) = true := by
  refine ⟨rfl, ?_, ?_, by decide, ?_, ?_⟩ <;>
    simp [handleDetect, detectTrace, staleState, readyState, initialState,
      applyTrace, applyEffect, showsResults, showsError, connectionErrorMsg]

/-- C1 (amended): `handleFileSelect` with a file resets both
`DetectionResult` and `ErrorMessage`; `handleDetect` clears only
`ErrorMessage` before proceeding and never clears `DetectionResult` (a
transport failure leaves it unchanged), so the at-most-one invariant holds
after a request settles only when `DetectionResult` was empty at
dispatch. -/
theorem at_most_one_amended (s : ComponentState) (o : FetchOutcome) (f : JSFile) :
    (handleFileSelect (some f) s).results = none ∧
    (handleFileSelect (some f) s).error = "" ∧
    (handleDetect s .failure).results = s.results ∧
    (s.results = none → (handleDetect s o).results = none ∨ (handleDetect s o).error = "") := by
  refine ⟨?_, ?_, ?_, fun h => ?_⟩
  · simp [handleFileSelect, fileSelectTrace, applyTrace, applyEffect]
  · simp [handleFileSelect, fileSelectTrace, applyTrace, applyEffect]
  · rcases hsel : s.selectedFile with _ | f₀ <;>
      simp [handleDetect, detectTrace, hsel, applyTrace, applyEffect]
  · rcases hsel : s.selectedFile with _ | f₀
    · exact Or.inl (by simp [handleDetect, detectTrace, hsel, applyTrace, applyEffect, h])
    · rcases o with _ | ⟨status, data⟩
      · exact Or.inl (by simp [handleDetect, detectTrace, hsel, applyTrace, applyEffect, h])
      · rcases hd : data.success
        · exact Or.inl (by simp [handleDetect, detectTrace, hsel, hd, applyTrace, applyEffect, h])
        · exact Or.inr (by simp [handleDetect, detectTrace, hsel, hd, applyTrace, applyEffect])

/-- C1 witness: the amended statement applied at the ready state (no prior
result) with a transport failure. -/
theorem at_most_one_amended_witness :
    readyState.results = none ∧
    (handleFileSelect (some sampleFile) readyState).results = none ∧
    (handleFileSelect (some sampleFile) readyState).error = "" ∧
    (handleDetect readyState .failure).results = readyState.results ∧
    ((handleDetect readyState .failure).results = none ∨
      (handleDetect readyState .failure).error = "") := by
  have h := at_most_one_amended readyState .failure sampleFile
  exact ⟨rfl, h.1, h.2.1, h.2.2.1, h.2.2.2 rfl⟩

/-- C2: with no selected image, `handleDetect` only sets the error to
"Please select an image first" — every other state cell is unchanged —
and its trace dispatches no request. -/
theorem detect_no_file (s : ComponentState) (o : FetchOutcome)
    (h : s.selectedFile = none) :
    handleDetect s o = { s with error := "Please select an image first" } ∧
    sentRequests (detectTrace s o) = [] := by
  constructor <;>
    simp [handleDetect, detectTrace, h, applyTrace, applyEffect, sentRequests]

/-- C2 witness: the initial state has no selected image. -/
theorem detect_no_file_witness :
    initialState.selectedFile = none ∧
    handleDetect initialState .failure =
      { initialState with error := "Please select an image first" } ∧
    sentRequests (detectTrace initialState .failure) = [] := by
  have h := detect_no_file initialState .failure rfl
  exact ⟨rfl, h.1, h.2⟩

/-- C3: on a round trip whose parsed body has `success = true`,
`handleDetect` stores that body unmodified as the results and leaves the
error empty (it was cleared at dispatch and no later step sets it). -/
theorem detect_success_stores_body (s : ComponentState) (f : JSFile) (status : ℕ)
    (data : DetectionResponse) (hf : s.selectedFile = some f) (hs : data.success = true) :
    (handleDetect s (.response status data)).results = some data ∧
    (handleDetect s (.response status data)).error = "" := by
  simp [handleDetect, detectTrace, hf, hs, applyTrace, applyEffect]

/-- C3 witness: Scenario A's successful response at the ready state. -/
theorem detect_success_stores_body_witness :
    readyState.selectedFile = some sampleFile ∧
    sampleResponse.success = true ∧
    (handleDetect readyState (.response 200 sampleResponse)).results = some sampleResponse ∧
    (handleDetect readyState (.response 200 sampleResponse)).error = "" := by
  have h := detect_success_stores_body readyState sampleFile 200 sampleResponse rfl rfl
  exact ⟨rfl, rfl, h.1, h.2⟩

/-- C4 counterexample: a failure body whose `error` field is the empty
string `X = ""` yields the fallback "Detection failed", not `X`: the
JavaScript `data.error || 'Detection failed'` treats an empty string as
falsy, refuting "an `error` field equal to string X sets ErrorMessage to
X". -/
theorem error_field_empty_cex :
    emptyErrorResponse.success = false ∧
    emptyErrorResponse.error = some "" ∧
    (handleDetect readyState (.response 200 emptyErrorResponse)).error = "Detection failed" ∧
    "Detection failed" ≠ "" := by
  refine ⟨rfl, rfl, ?_, by decide⟩
  simp [handleDetect, detectTrace, readyState, initialState, emptyErrorResponse,
    sampleResponse, applyTrace, applyEffect, jsOr]

/-- C4 (amended): on a falsy `success`, the error message is the body's
`error` field when that field is present and non-empty, and the fallback
"Detection failed" when the field is absent or the empty string. -/
theorem detect_failure_message (s : ComponentState) (f : JSFile) (status : ℕ)
    (data : DetectionResponse) (hf : s.selectedFile = some f) (hs : data.success = false) :
    (∀ x, data.error = some x → x ≠ "" →
      (handleDetect s (.response status data)).error = x) ∧
    (data.error = none → (handleDetect s (.response status data)).error = "Detection failed") ∧
    (data.error = some "" →
      (handleDetect s (.response status data)).error = "Detection failed") := by
  refine ⟨fun x hx hxe => ?_, fun hn => ?_, fun he => ?_⟩ <;>
    simp [handleDetect, detectTrace, hf, hs, applyTrace, applyEffect, jsOr, *]

/-- C4 witness: Scenario C's failure body with `error = "No detections
found"`. -/
theorem detect_failure_message_witness :
    readyState.selectedFile = some sampleFile ∧
    failureResponse.success = false ∧
    failureResponse.error = some "No detections found" ∧
    "No detections found" ≠ "" ∧
    (handleDetect readyState (.response 200 failureResponse)).error = "No detections found" := by
  have h := detect_failure_message readyState sampleFile 200 failureResponse rfl rfl
  exact ⟨rfl, rfl, rfl, by decide, h.1 "No detections found" rfl (by decide)⟩

set_option maxRecDepth 8000 in
/-- C5: a transport failure sets the error to the fixed diagnostic string
and logs, but the diagnostic names port 5000 while the request was sent to
`http://localhost:1000/api/detect`: the string "5000" occurs in the
diagnostic, "1000" occurs in the request URL, and "1000" does not occur in
the diagnostic — so the diagnostic does not name the endpoint the request
was sent to. -/
theorem transport_failure_diagnostic :
    (handleDetect readyState .failure).error = connectionErrorMsg ∧
    logsError (detectTrace readyState .failure) = true ∧
    sentRequests (detectTrace readyState .failure) = [mkRequest sampleFile (2/5)] ∧
    connectionErrorMsg =
      "Failed to connect to API. Make sure Flask server is running on port 5000" ∧
    apiUrl = "http://localhost:1000/api/detect" ∧
    List.IsInfix "5000".data connectionErrorMsg.data ∧
    List.IsInfix "1000".data apiUrl.data ∧
    ¬ List.IsInfix "1000".data connectionErrorMsg.data := by
  refine ⟨?_, ?_, ?_, rfl, rfl, by decide, by decide, by decide⟩ <;>
    simp [handleDetect, detectTrace, readyState, initialState, applyTrace,
      applyEffect, logsError, sentRequests, mkRequest]

/-- C6: with an image selected, the loading flag is set to true as the
first step of `handleDetect`, every intermediate state strictly between
that dispatch and settlement has it true, and setting it back to false is
the final step on every completion path; the settled state has it
false. -/
theorem detect_loading_lifecycle (s : ComponentState) (f : JSFile) (o : FetchOutcome)
    (hf : s.selectedFile = some f) :
    (detectTrace s o).head? = some (.setLoading true) ∧
    (detectTrace s o).getLast? = some (.setLoading false) ∧
    ((List.scanl applyEffect s (detectTrace s o)).drop 1).dropLast.all
      (fun st => st.loading) = true ∧
    (handleDetect s o).loading = false := by
  rcases o with _ | ⟨status, data⟩
  · refine ⟨?_, ?_, ?_, ?_⟩ <;>
      simp [detectTrace, hf, handleDetect, applyTrace, applyEffect, List.scanl,
        List.getLast?]
  · rcases hd : data.success <;>
      refine ⟨?_, ?_, ?_, ?_⟩ <;>
      simp [detectTrace, hf, hd, handleDetect, applyTrace, applyEffect, List.scanl,
        List.getLast?]

/-- C6 witness: the lifecycle at the ready state under a transport
failure. -/
theorem detect_loading_lifecycle_witness :
    readyState.selectedFile = some sampleFile ∧
    (detectTrace readyState .failure).head? = some (.setLoading true) ∧
    (detectTrace readyState .failure).getLast? = some (.setLoading false) ∧
    ((List.scanl applyEffect readyState (detectTrace readyState .failure)).drop 1).dropLast.all
      (fun st => st.loading) = true ∧
    (handleDetect readyState .failure).loading = false := by
  have h := detect_loading_lifecycle readyState sampleFile .failure rfl
  exact ⟨rfl, h.1, h.2.1, h.2.2.1, h.2.2.2⟩

/-- C7: with an image selected, `handleDetect` dispatches exactly one
request on every outcome path: a POST to the fixed URL
`http://localhost:1000/api/detect`, with no headers, whose form body is
exactly the selected file under `image` followed by the stringified
confidence under `confidence`. -/
theorem detect_request_shape (s : ComponentState) (f : JSFile) (o : FetchOutcome)
    (hf : s.selectedFile = some f) :
    sentRequests (detectTrace s o) =
      [{ method := "POST"
         url := "http://localhost:1000/api/detect"
         headers := []
         formFields := [("image", .file f),
                        ("confidence", .text (jsNumToString s.confidence))] }] := by
  rcases o with _ | ⟨status, data⟩
  · simp [detectTrace, hf, sentRequests, mkRequest, apiUrl]
  · rcases hd : data.success <;>
      simp [detectTrace, hf, hd, sentRequests, mkRequest, apiUrl]

/-- C7 witness: the request shape at the ready state (confidence 0.4,
stringified as "0.4"). -/
theorem detect_request_shape_witness :
    readyState.selectedFile = some sampleFile ∧
    sentRequests (detectTrace readyState .failure) =
      [{ method := "POST"
         url := "http://localhost:1000/api/detect"
         headers := []
         formFields := [("image", .file sampleFile),
                        ("confidence", .text (jsNumToString readyState.confidence))] }] :=
  ⟨rfl, detect_request_shape readyState sampleFile .failure rfl⟩

/-- C8: `handleFileSelect` with a file replaces the selected file,
regenerates the preview URL, and resets results and error to empty —
whatever the prior state, hence also both times when the same file is
selected twice in a row — while leaving loading and confidence unchanged;
with no file it is the identity. -/
theorem fileSelect_resets (s : ComponentState) (f : JSFile) :
    handleFileSelect (some f) s =
      { s with selectedFile := some f, previewUrl := createObjectURL f,
               results := none, error := "" } ∧
    (handleFileSelect (some f) s).results = none ∧
    (handleFileSelect (some f) s).error = "" ∧
    (handleFileSelect (some f) (handleFileSelect (some f) s)).results = none ∧
    (handleFileSelect (some f) (handleFileSelect (some f) s)).error = "" ∧
    handleFileSelect none s = s := by
  refine ⟨?_, ?_, ?_, ?_, ?_, ?_⟩ <;>
    simp [handleFileSelect, fileSelectTrace, applyTrace, applyEffect]

/-- C9: the results panel shows the total detection count, the average
confidence as a percentage with one decimal place (`0.81` renders as
"81.0%"), the annotated image, and the detections in the server's order,
each with its identifier and class label in the header, its confidence as
a percentage with two decimal places, and its bounding box as `[x1, y1,
x2, y2]` with each coordinate `toFixed(0)`, which is the nearest integer
`⌊q + 1/2⌋` (within 1/2 of the true coordinate, ties upward). -/
theorem render_results_contract (r : DetectionResponse) (d : Detection) (q : ℚ) :
    (renderResults r).totalCount = jsNumToString r.detection_stats.total_count ∧
    (renderResults r).avgConfidence =
      toFixed (r.detection_stats.average_confidence * 100) 1 ++ "%" ∧
    (renderResults r).annotatedImage = r.annotated_image ∧
    (renderResults r).detections = r.detections.map renderDetection ∧
    (renderDetection d).header = "#" ++ jsNumToString d.id ++ " - " ++ d.«class» ∧
    (renderDetection d).confidenceBadge = toFixed (d.confidence * 100) 2 ++ "%" ∧
    (renderDetection d).boxLine =
      "Box: [" ++ toFixed d.bbox.x1 0 ++ ", " ++ toFixed d.bbox.y1 0 ++ ", "
        ++ toFixed d.bbox.x2 0 ++ ", " ++ toFixed d.bbox.y2 0 ++ "]" ∧
    toFixed ((81:ℚ)/100 * 100) 1 ++ "%" = "81.0%" ∧
    toFixed q 0 =
      (if (⌊q + 1/2⌋ : ℤ) < 0 then "-" else "") ++ toString (⌊q + (1:ℚ)/2⌋).natAbs ∧
    |((⌊q + 1/2⌋ : ℤ) : ℚ) - q| ≤ 1/2 := by
  refine ⟨rfl, rfl, rfl, rfl, rfl, rfl, rfl, ?_, ?_, ?_⟩
  · norm_num [toFixed, padZeros]
    rfl
  · simp [toFixed]
  · have h1 := Int.floor_le (q + 1/2)
    have h2 := Int.lt_floor_add_one (q + 1/2)
    rw [abs_le]
    constructor <;> linarith

/-- C10: the HTTP status of the response is never examined: the effect
trace and the settled state of `handleDetect` are identical for any two
statuses carrying the same parsed body, and a body with `success = true`
arriving with status 500 is stored as the results exactly as a 200 body
would be. -/
theorem status_not_examined (s : ComponentState) (data : DetectionResponse) (s₁ s₂ : ℕ) :
    detectTrace s (.response s₁ data) = detectTrace s (.response s₂ data) ∧
    handleDetect s (.response s₁ data) = handleDetect s (.response s₂ data) ∧
    (∀ f, s.selectedFile = some f → data.success = true →
      (handleDetect s (.response 500 data)).results = some data ∧
      (handleDetect s (.response 500 data)).error = "") := by
  refine ⟨rfl, rfl, fun f hf hs => ?_⟩
  simp [handleDetect, detectTrace, hf, hs, applyTrace, applyEffect]

/-- C10 witness: statuses 404 and 200 with Scenario A's body, and storage
of a `success = true` body under status 500. -/
theorem status_not_examined_witness :
    readyState.selectedFile = some sampleFile ∧
    sampleResponse.success = true ∧
    detectTrace readyState (.response 404 sampleResponse) =
      detectTrace readyState (.response 200 sampleResponse) ∧
    (handleDetect readyState (.response 500 sampleResponse)).results = some sampleResponse ∧
    (handleDetect readyState (.response 500 sampleResponse)).error = "" := by
  have h := status_not_examined readyState sampleResponse 404 200
  exact ⟨rfl, rfl, h.1, (h.2.2 sampleFile rfl rfl).1, (h.2.2 sampleFile rfl rfl).2⟩
